import Mathlib

/-!
Verification of the XBee-PRO 900 API protocol engine (python-xbee).

The device schema tables are transcribed from `src/xbee/pro900.py`
(`XBeePro900.api_commands` and `XBeePro900.api_responses`).  The protocol
engine itself (command builder, response splitter, frame codec, shorthand
dispatch) lives in the `XBeeBase` class, which is not part of the source
tree given here; those operations are modelled from the specification, as
marked on each definition.  Bytes are modelled as `Nat` values (< 256 on
real wires); byte strings as `List Nat`; keyword-field assignments as
association lists `List (String × List Nat)`.
-/

namespace XBeePro900

/-- Encode-time error taxonomy (spec section 7). -/
inductive BuildError where
  | UnknownCommand
  | MissingRequiredField
  | InvalidFieldLength
deriving DecidableEq

/-- Decode-time error taxonomy (spec section 7). -/
inductive SplitError where
  | UnrecognizedResponseId
  | TruncatedPacket
  | TrailingData
deriving DecidableEq

/-- One outbound-command field spec: name, fixed byte length (`none` means
variable length, consuming whatever value is supplied), optional default. -/
structure CmdField where
  name : String
  len : Option Nat
  default : Option (List Nat)
deriving DecidableEq

/-- Length marker of an inbound-response field: fixed size, variable
(`len:None` in the table, consumes to end of packet), or null-terminated. -/
inductive RLen where
  | fixed (n : Nat)
  | toEnd
  | nullTerminated
deriving DecidableEq

/-- One inbound-response field spec. -/
structure RespField where
  name : String
  len : RLen
deriving DecidableEq

/-- `XBeePro900.api_commands` from `src/xbee/pro900.py`: command name to
ordered field specs. -/
def api_commands : List (String × List CmdField) :=
  [("at",
     [⟨"id", some 1, some [0x08]⟩,
      ⟨"frame_id", some 1, some [0x00]⟩,
      ⟨"command", some 2, none⟩,
      ⟨"parameter", none, none⟩]),
   ("queued_at",
     [⟨"id", some 1, some [0x09]⟩,
      ⟨"frame_id", some 1, some [0x00]⟩,
      ⟨"command", some 2, none⟩,
      ⟨"parameter", none, none⟩]),
   ("tx",
     [⟨"id", some 1, some [0x10]⟩,
      ⟨"frame_id", some 1, some [0x00]⟩,
      ⟨"dest_addr", some 8, none⟩,
      ⟨"reserved", some 2, some [0xFF, 0xFE]⟩,
      ⟨"broadcast_radius", some 1, some [0x00]⟩,
      ⟨"options", some 1, some [0x00]⟩,
      ⟨"data", none, none⟩]),
   ("tx_explicit",
     [⟨"id", some 1, some [0x11]⟩,
      ⟨"frame_id", some 1, some [0x00]⟩,
      ⟨"dest_addr", some 8, none⟩,
      ⟨"reserved", some 2, some [0xFF, 0xFE]⟩,
      ⟨"source_endpoint", some 1, none⟩,
      ⟨"dest_endpoint", some 1, none⟩,
      ⟨"cluster_id", some 2, none⟩,
      ⟨"profile_id", some 2, none⟩,
      ⟨"broadcast_radius", some 1, some [0x00]⟩,
      ⟨"options", some 1, some [0x00]⟩,
      ⟨"data", none, none⟩]),
   ("remote_at",
     [⟨"id", some 1, some [0x17]⟩,
      ⟨"frame_id", some 1, some [0x00]⟩,
      ⟨"dest_addr_long", some 8, some [0, 0, 0, 0, 0, 0, 0, 0]⟩,
      ⟨"reserved", some 2, some [0xFF, 0xFE]⟩,
      ⟨"options", some 1, some [0x02]⟩,
      ⟨"command", some 2, none⟩,
      ⟨"parameter", none, none⟩])]

/-- `XBeePro900.api_responses` from `src/xbee/pro900.py`: leading id byte to
response name and ordered field specs. -/
def api_responses : List (Nat × String × List RespField) :=
  [(0x88, "at_response",
     [⟨"frame_id", .fixed 1⟩,
      ⟨"command", .fixed 2⟩,
      ⟨"status", .fixed 1⟩,
      ⟨"parameter", .toEnd⟩]),
   (0x8A, "status",
     [⟨"status", .fixed 1⟩]),
   (0x8B, "tx_status",
     [⟨"frame_id", .fixed 1⟩,
      ⟨"reserved", .fixed 2⟩,
      ⟨"retry_count", .fixed 1⟩,
      ⟨"status", .fixed 1⟩,
      ⟨"discovery_status", .fixed 1⟩]),
   (0x90, "rx",
     [⟨"frame_id", .fixed 1⟩,
      ⟨"source_addr", .fixed 7⟩,
      ⟨"reserved", .fixed 2⟩,
      ⟨"options", .fixed 1⟩,
      ⟨"rf_data", .toEnd⟩]),
   (0x91, "rx_explicit",
     [⟨"frame_id", .fixed 1⟩,
      ⟨"source_addr", .fixed 8⟩,
      ⟨"reserved", .fixed 2⟩,
      ⟨"source_endpoint", .fixed 1⟩,
      ⟨"dest_endpoint", .fixed 1⟩,
      ⟨"cluster_id", .fixed 2⟩,
      ⟨"profile_id", .fixed 2⟩,
      ⟨"options", .fixed 1⟩,
      ⟨"rf_data", .toEnd⟩]),
   (0x95, "node_id_indicator",
     [⟨"sender_addr", .fixed 8⟩,
      ⟨"sender_network", .fixed 2⟩,
      ⟨"options", .fixed 1⟩,
      ⟨"source_network", .fixed 2⟩,
      ⟨"source_addr", .fixed 8⟩,
      ⟨"node_id", .nullTerminated⟩,
      ⟨"parent_source_addr", .fixed 2⟩]),
   (0x97, "remote_at_response",
     [⟨"frame_id", .fixed 1⟩,
      ⟨"source_addr", .fixed 8⟩,
      ⟨"reserved", .fixed 2⟩,
      ⟨"command", .fixed 2⟩,
      ⟨"status", .fixed 1⟩,
      ⟨"parameter", .toEnd⟩])]

/-- First-match association-list lookup (the ordered stand-in for the
source's dict indexing). -/
def alookup {α β : Type} [DecidableEq α] (k : α) : List (α × β) → Option β
  | [] => none
  | (k', v) :: rest => if k = k' then some v else alookup k rest

/-- Modelled from the spec: body of `build_command` (section 4.1), the field
loop of `XBeeBase._build_command` (file `base.py`, not in `src/`).  Fields
are resolved in schema order: a supplied value for a fixed-length field must
match the spec length exactly (`InvalidFieldLength` otherwise) while a
variable-length field accepts any length; an unsupplied field falls back to
its default, and an unsupplied fixed-length field with no default fails with
`MissingRequiredField` (an unsupplied variable-length field is simply
omitted, as the spec's own scenarios and the tests require). -/
def buildFields : List CmdField → List (String × List Nat) → Except BuildError (List Nat)
  | [], _ => .ok []
  | f :: fs, fields =>
    match alookup f.name fields with
    | some v =>
      match f.len with
      | some n =>
        if v.length = n then
          match buildFields fs fields with
          | .ok rest => .ok (v ++ rest)
          | .error e => .error e
        else .error .InvalidFieldLength
      | none =>
        match buildFields fs fields with
        | .ok rest => .ok (v ++ rest)
        | .error e => .error e
    | none =>
      match f.default with
      | some d =>
        match buildFields fs fields with
        | .ok rest => .ok (d ++ rest)
        | .error e => .error e
      | none =>
        match f.len with
        | some _ => .error .MissingRequiredField
        | none => buildFields fs fields

/-- Modelled from the spec: `build_command(name, fields)` (section 4.1,
`XBeeBase._build_command`, not in `src/`): look the command up in the
device table and concatenate its resolved fields. -/
def build_command (cmd : String) (fields : List (String × List Nat)) :
    Except BuildError (List Nat) :=
  match alookup cmd api_commands with
  | none => .error .UnknownCommand
  | some st => buildFields st fields

/-- `checksum(payload) = 0xFF - (sum(payload) mod 256)` (spec sections 3
and 4.3). -/
def checksum (p : List Nat) : Nat := 0xFF - p.sum % 256

/-- Modelled from the spec: encode direction of the frame codec (section
4.3, unescaped): start delimiter, big-endian 16-bit length, payload,
checksum. -/
def frame (p : List Nat) : List Nat :=
  0x7E :: p.length / 256 :: p.length % 256 :: (p ++ [checksum p])

/-- Modelled from the spec: escape substitution (section 4.3): each reserved
byte of the length/payload/checksum region becomes `0x7D, byte XOR 0x20`. -/
def escapeByte (b : Nat) : List Nat :=
  if b = 0x7E ∨ b = 0x7D ∨ b = 0x11 ∨ b = 0x13 then [0x7D, b ^^^ 0x20] else [b]

/-- Escape every byte of a region. -/
def escapeList : List Nat → List Nat
  | [] => []
  | b :: rest => escapeByte b ++ escapeList rest

/-- Modelled from the spec: encode direction of the frame codec with
escaping enabled (section 4.3); the leading start delimiter is never
escaped. -/
def frameEscaped (p : List Nat) : List Nat :=
  0x7E :: escapeList (p.length / 256 :: p.length % 256 :: (p ++ [checksum p]))

/-- Modelled from the spec: read one logical byte from the stream (decode
direction, section 4.3).  With escaping enabled a `0x7D` is an escape
lead-in and the following byte XOR `0x20` is substituted. -/
def readEscByte (escaped : Bool) : List Nat → Option (Nat × List Nat)
  | [] => none
  | b :: rest =>
    if escaped ∧ b = 0x7D then
      match rest with
      | [] => none
      | c :: rest2 => some (c ^^^ 0x20, rest2)
    else some (b, rest)

/-- Read `n` logical bytes (with on-the-fly unescaping when enabled). -/
def readN (escaped : Bool) : Nat → List Nat → Option (List Nat × List Nat)
  | 0, stream => some ([], stream)
  | n + 1, stream =>
    match readEscByte escaped stream with
    | none => none
    | some (b, rest) =>
      match readN escaped n rest with
      | none => none
      | some (bs, rest2) => some (b :: bs, rest2)

/-- Modelled from the spec: decode direction of the frame codec (section
4.3): discard until a `0x7E` start delimiter, read two length bytes, `len`
payload bytes and one checksum byte (all unescaped on the fly when escaping
is enabled), verify the checksum, and return the payload (`none` stands for
`ChecksumMismatch`/exhausted input). -/
def readFrame (escaped : Bool) (stream : List Nat) : Option (List Nat) :=
  match stream.dropWhile (fun b => ¬ b = 0x7E) with
  | [] => none
  | _ :: rest =>
    match readEscByte escaped rest with
    | none => none
    | some (l1, r1) =>
      match readEscByte escaped r1 with
      | none => none
      | some (l2, r2) =>
        match readN escaped (l1 * 256 + l2) r2 with
        | none => none
        | some (payload, r3) =>
          match readEscByte escaped r3 with
          | none => none
          | some (ck, _) => if ck = checksum payload then some payload else none

/-- Consume exactly `n` bytes from the front of `data`; `none` when fewer
than `n` bytes remain (the packet is shorter than the layout requires). -/
def takeN : Nat → List Nat → Option (List Nat × List Nat)
  | 0, data => some ([], data)
  | _ + 1, [] => none
  | n + 1, b :: rest =>
    match takeN n rest with
    | none => none
    | some (v, r) => some (b :: v, r)

/-- Scan a null-terminated field: the value up to (excluding) the first
`0x00` byte, which is skipped; `none` when no terminator is found. -/
def splitNull : List Nat → Option (List Nat × List Nat)
  | [] => none
  | b :: rest =>
    if b = 0 then some ([], rest)
    else
      match splitNull rest with
      | none => none
      | some (v, r) => some (b :: v, r)

/-- Modelled from the spec: the field loop of `split_response` (section 4.2,
`XBeeBase._split_response`, not in `src/`).  Fixed-length fields consume
exactly their length (`TruncatedPacket` when fewer bytes remain);
null-terminated fields scan for `0x00`; a variable (`ToEnd`) field consumes
everything that remains and appears in the result only when at least one
byte remains; leftover bytes after the last field give `TrailingData`. -/
def splitFields : List RespField → List Nat → Except SplitError (List (String × List Nat))
  | [], [] => .ok []
  | [], _ :: _ => .error .TrailingData
  | f :: fs, data =>
    match f.len with
    | .fixed n =>
      match takeN n data with
      | none => .error .TruncatedPacket
      | some (v, r) =>
        match splitFields fs r with
        | .ok rest => .ok ((f.name, v) :: rest)
        | .error e => .error e
    | .nullTerminated =>
      match splitNull data with
      | none => .error .TruncatedPacket
      | some (v, r) =>
        match splitFields fs r with
        | .ok rest => .ok ((f.name, v) :: rest)
        | .error e => .error e
    | .toEnd =>
      match data with
      | [] =>
        match splitFields fs [] with
        | .ok rest => .ok rest
        | .error e => .error e
      | _ :: _ =>
        match splitFields fs [] with
        | .ok rest => .ok ((f.name, data) :: rest)
        | .error e => .error e

/-- Modelled from the spec: `split_response(payload)` (section 4.2): match
the leading id byte against the device's response table and decompose the
rest into named fields; the result pairs the response's human-readable name
(the `id` entry of the mapping) with the field assignment. -/
def split_response (data : List Nat) :
    Except SplitError (String × List (String × List Nat)) :=
  match data with
  | [] => .error .UnrecognizedResponseId
  | idB :: rest =>
    match alookup idB api_responses with
    | none => .error .UnrecognizedResponseId
    | some (nm, st) =>
      match splitFields st rest with
      | .ok fields => .ok (nm, fields)
      | .error e => .error e

/-- Modelled from the spec: `send(name, fields)` (section 4.5): build the
command payload, frame it, and write it to the transport.  The `ok` value is
exactly the byte string written; on error nothing is written and the
builder's error propagates. -/
def send (cmd : String) (fields : List (String × List Nat)) :
    Except BuildError (List Nat) :=
  match build_command cmd fields with
  | .ok payload => .ok (frame payload)
  | .error e => .error e

/-- Modelled from the spec: attribute-style shorthand dispatch (section 4.5,
`XBeeBase.__getattr__`, not in `src/`).  With shorthand enabled, a known
command name resolves to the partially-applied `send`; an unknown name, or
any access with shorthand disabled, yields `none` (the `AttributeNotFound`
failure — no dynamic resolution happens when disabled). -/
def shorthandCall (shorthand : Bool) (attrName : String) :
    Option (List (String × List Nat) → Except BuildError (List Nat)) :=
  if shorthand ∧ (alookup attrName api_commands).isSome then
    some (send attrName)
  else none

/-- A named field assignment conforms to a response structure: names agree
in order, fixed-length values have exactly the spec length, null-terminated
values contain no `0x00`, and a trailing variable field is either a nonempty
value or absent from the assignment altogether. -/
def fieldsFit : List RespField → List (String × List Nat) → Bool
  | [], vals => vals.isEmpty
  | f :: fs, vals =>
    match f.len, vals with
    | .fixed n, (m, v) :: vals2 =>
      (m == f.name) && (v.length == n) && fieldsFit fs vals2
    | .nullTerminated, (m, v) :: vals2 =>
      (m == f.name) && v.all (fun b => b != 0) && fieldsFit fs vals2
    | .toEnd, (m, v) :: vals2 =>
      (m == f.name) && !v.isEmpty && fs.isEmpty && vals2.isEmpty
    | .toEnd, [] => fs.isEmpty
    | _, [] => false

/-- The wire bytes of a conforming field assignment: values concatenated in
schema order, with a `0x00` terminator appended after each null-terminated
value (the inverse reading of the splitter's consumption). -/
def wire : List RespField → List (String × List Nat) → List Nat
  | [], _ => []
  | f :: fs, vals =>
    match f.len, vals with
    | .fixed _, (_, v) :: vals2 => v ++ wire fs vals2
    | .nullTerminated, (_, v) :: vals2 => v ++ 0 :: wire fs vals2
    | .toEnd, (_, v) :: _ => v
    | _, [] => []

/-- A supplied value for one of this command field's names has the wrong
byte length for a fixed-length field. -/
def isMismatch (f : CmdField) (fields : List (String × List Nat)) : Bool :=
  match alookup f.name fields, f.len with
  | some v, some n => v.length != n
  | _, _ => false

/-- Every fixed-length field is either supplied by the caller or has a
default (so `MissingRequiredField` cannot fire for it). -/
def fixedCovered (f : CmdField) (fields : List (String × List Nat)) : Bool :=
  match f.len with
  | some _ => (alookup f.name fields).isSome || f.default.isSome
  | none => true

/-- Every non-final field of a command schema has a fixed length, so a
variable-length field (marker `len:None`) can only sit last. -/
def cmdVarLast : List CmdField → Bool
  | [] => true
  | [_] => true
  | f :: fs => f.len.isSome && cmdVarLast fs

/-- Every non-final field of a response structure is fixed or
null-terminated, so a variable (`ToEnd`) field can only sit last. -/
def respVarLast : List RespField → Bool
  | [] => true
  | [_] => true
  | f :: fs => (f.len != RLen.toEnd) && respVarLast fs

/-! Helper lemmas about byte consumption and the frame codec. -/

theorem takeN_append (v rest : List Nat) : takeN v.length (v ++ rest) = some (v, rest) := by
  induction v with
  | nil => rfl
  | cons b bs ih => simp [takeN, ih]

theorem splitNull_append (v rest : List Nat) (h : ∀ b ∈ v, ¬ b = 0) :
    splitNull (v ++ 0 :: rest) = some (v, rest) := by
  induction v with
  | nil => simp [splitNull]
  | cons b bs ih =>
    have hb : ¬ b = 0 := h b (List.mem_cons_self b bs)
    have hbs : ∀ x ∈ bs, ¬ x = 0 := fun x hx => h x (List.mem_cons_of_mem b hx)
    simp [splitNull, hb, ih hbs]

theorem readEscByte_false (b : Nat) (rest : List Nat) :
    readEscByte false (b :: rest) = some (b, rest) := by
  simp [readEscByte]

theorem readN_false_append (data rest : List Nat) :
    readN false data.length (data ++ rest) = some (data, rest) := by
  induction data with
  | nil => rfl
  | cons b bs ih => simp [readN, readEscByte_false, ih]

theorem readEscByte_escapeByte (b : Nat) (rest : List Nat) :
    readEscByte true (escapeByte b ++ rest) = some (b, rest) := by
  by_cases h : b = 0x7E ∨ b = 0x7D ∨ b = 0x11 ∨ b = 0x13
  · simp [escapeByte, h, readEscByte, Nat.xor_cancel_right]
  · push_neg at h
    obtain ⟨h1, h2, h3, h4⟩ := h
    simp [escapeByte, readEscByte, h1, h2, h3, h4]

theorem escapeList_append (xs ys : List Nat) :
    escapeList (xs ++ ys) = escapeList xs ++ escapeList ys := by
  induction xs with
  | nil => rfl
  | cons b bs ih => simp [escapeList, ih]

theorem readN_true_escapeList (data rest : List Nat) :
    readN true data.length (escapeList data ++ rest) = some (data, rest) := by
  induction data with
  | nil => rfl
  | cons b bs ih =>
    simp only [List.length_cons, readN, escapeList, List.append_assoc,
      readEscByte_escapeByte, ih]

theorem readFrame_frame (p : List Nat) : readFrame false (frame p) = some p := by
  have hlen : p.length / 256 * 256 + p.length % 256 = p.length := by omega
  have h1 : readFrame false (frame p) =
      match readN false (p.length / 256 * 256 + p.length % 256) (p ++ [checksum p]) with
      | none => none
      | some (payload, r3) =>
        match readEscByte false r3 with
        | none => none
        | some (ck, _) => if ck = checksum payload then some payload else none := rfl
  rw [h1, hlen, readN_false_append p [checksum p]]
  simp [readEscByte]

theorem readFrame_frameEscaped (p : List Nat) : readFrame true (frameEscaped p) = some p := by
  have hlen : p.length / 256 * 256 + p.length % 256 = p.length := by omega
  have h1 : readFrame true (frameEscaped p) =
      match readEscByte true (escapeByte (p.length / 256) ++
          (escapeByte (p.length % 256) ++ escapeList (p ++ [checksum p]))) with
      | none => none
      | some (l1, r1) =>
        match readEscByte true r1 with
        | none => none
        | some (l2, r2) =>
          match readN true (l1 * 256 + l2) r2 with
          | none => none
          | some (payload, r3) =>
            match readEscByte true r3 with
            | none => none
            | some (ck, _) => if ck = checksum payload then some payload else none := rfl
  have h2 : escapeList (p ++ [checksum p]) =
      escapeList p ++ (escapeByte (checksum p) ++ []) := by
    rw [escapeList_append]; rfl
  rw [h1, h2]
  simp only [readEscByte_escapeByte, hlen, readN_true_escapeList]
  simp

theorem splitFields_wire (fs : List RespField) (vals : List (String × List Nat))
    (h : fieldsFit fs vals = true) : splitFields fs (wire fs vals) = .ok vals := by
  induction fs generalizing vals with
  | nil =>
    have hv : vals = [] := by
      cases vals with
      | nil => rfl
      | cons a l => simp [fieldsFit] at h
    subst hv; rfl
  | cons f fs2 ih =>
    obtain ⟨nm, ln⟩ := f
    cases ln with
    | fixed n =>
      cases vals with
      | nil => simp [fieldsFit] at h
      | cons mv vals2 =>
        obtain ⟨m, v⟩ := mv
        simp only [fieldsFit, Bool.and_eq_true, beq_iff_eq] at h
        obtain ⟨⟨hm, hv⟩, hfit⟩ := h
        simp only [wire, splitFields]
        rw [← hv, takeN_append]
        simp [ih vals2 hfit, hm]
    | nullTerminated =>
      cases vals with
      | nil => simp [fieldsFit] at h
      | cons mv vals2 =>
        obtain ⟨m, v⟩ := mv
        simp only [fieldsFit, Bool.and_eq_true, beq_iff_eq, List.all_eq_true,
          bne_iff_ne, ne_eq] at h
        obtain ⟨⟨hm, hv⟩, hfit⟩ := h
        simp only [wire, splitFields]
        rw [splitNull_append v _ hv]
        simp [ih vals2 hfit, hm]
    | toEnd =>
      cases vals with
      | nil =>
        have hfs : fs2 = [] := by
          simpa [fieldsFit, List.isEmpty_iff] using h
        subst hfs; rfl
      | cons mv vals2 =>
        obtain ⟨m, v⟩ := mv
        simp only [fieldsFit, Bool.and_eq_true, beq_iff_eq] at h
        obtain ⟨⟨⟨hm, hv⟩, hfs⟩, hvals⟩ := h
        have hfs2 : fs2 = [] := by
          cases fs2 with
          | nil => rfl
          | cons a l => simp at hfs
        have hvals2 : vals2 = [] := by
          cases vals2 with
          | nil => rfl
          | cons a l => simp at hvals
        subst hfs2; subst hvals2
        cases v with
        | nil => simp at hv
        | cons b bs => simp [wire, splitFields, hm]

theorem split_response_ok (idB : Nat) (nm : String) (st : List RespField)
    (rest : List Nat) (fl : List (String × List Nat))
    (hlook : alookup idB api_responses = some (nm, st))
    (hspl : splitFields st rest = .ok fl) :
    split_response (idB :: rest) = .ok (nm, fl) := by
  simp [split_response, hlook, hspl]

theorem buildFields_mismatch_iff (st : List CmdField)
    (fields : List (String × List Nat))
    (hcov : ∀ f ∈ st, fixedCovered f fields = true) :
    (∃ f ∈ st, isMismatch f fields = true) ↔
      buildFields st fields = .error .InvalidFieldLength := by
  induction st with
  | nil => simp [buildFields]
  | cons f fs ih =>
    have hcf := hcov f (List.mem_cons_self f fs)
    have ihfs := ih (fun g hg => hcov g (List.mem_cons_of_mem f hg))
    cases hl : alookup f.name fields with
    | some v =>
      cases hn : f.len with
      | some n =>
        by_cases hvn : v.length = n
        · have hmf : isMismatch f fields = false := by
            simp [isMismatch, hl, hn, hvn]
          simp only [buildFields, hl, hn, if_pos hvn]
          cases hb : buildFields fs fields with
          | ok r =>
            simp only [hb] at ihfs
            simp [hmf, ihfs]
          | error e =>
            simp only [hb] at ihfs
            simp [hmf, ihfs]
        · have hmf : isMismatch f fields = true := by
            simp [isMismatch, hl, hn, hvn]
          simp only [buildFields, hl, hn, if_neg hvn]
          exact iff_of_true ⟨f, List.mem_cons_self f fs, hmf⟩ trivial
      | none =>
        have hmf : isMismatch f fields = false := by simp [isMismatch, hl, hn]
        simp only [buildFields, hl, hn]
        cases hb : buildFields fs fields with
        | ok r =>
          simp only [hb] at ihfs
          simp [hmf, ihfs]
        | error e =>
          simp only [hb] at ihfs
          simp [hmf, ihfs]
    | none =>
      have hmf : isMismatch f fields = false := by simp [isMismatch, hl]
      cases hd : f.default with
      | some d =>
        simp only [buildFields, hl, hd]
        cases hb : buildFields fs fields with
        | ok r =>
          simp only [hb] at ihfs
          simp [hmf, ihfs]
        | error e =>
          simp only [hb] at ihfs
          simp [hmf, ihfs]
      | none =>
        cases hn : f.len with
        | some n => simp [fixedCovered, hn, hl, hd] at hcf
        | none =>
          simp only [buildFields, hl, hd, hn]
          rw [← ihfs]
          simp [hmf]

/-! Claim theorems. -/

/-- C1: Encoding the at command with frame_id 'A' (0x41) and command "MY"
(0x4D 0x59) produces the unframed payload 08 41 4D 59, and send writes
exactly the framed bytes 7E 00 04 08 41 4D 59 10 to the transport, the
final byte being the checksum 0xFF - (sum of payload bytes mod 256). -/
theorem c1_send_at_command :
    build_command "at" [("frame_id", [0x41]), ("command", [0x4D, 0x59])] =
      .ok [0x08, 0x41, 0x4D, 0x59] ∧
    send "at" [("frame_id", [0x41]), ("command", [0x4D, 0x59])] =
      .ok [0x7E, 0x00, 0x04, 0x08, 0x41, 0x4D, 0x59, 0x10] ∧
    0x10 = checksum [0x08, 0x41, 0x4D, 0x59] ∧
    checksum [0x08, 0x41, 0x4D, 0x59] =
      0xFF - (0x08 + 0x41 + 0x4D + 0x59) % 256 :=
  ⟨rfl, rfl, rfl, rfl⟩

/-- C2, as stated, is false: the payload built for the at command starts
with the command id byte 0x08, which is not a key of the response table, so
splitting the unframed encoding of a built command fails with
`UnrecognizedResponseId` instead of round-tripping. -/
theorem c2_counterexample :
    build_command "at" [("frame_id", [0x41]), ("command", [0x4D, 0x59])] =
      .ok [0x08, 0x41, 0x4D, 0x59] ∧
    readFrame false (frame [0x08, 0x41, 0x4D, 0x59]) =
      some [0x08, 0x41, 0x4D, 0x59] ∧
    split_response [0x08, 0x41, 0x4D, 0x59] =
      .error .UnrecognizedResponseId :=
  ⟨rfl, rfl, rfl⟩

/-- C2 (amended): the decode side round-trips against response schemas: for
every response schema of the device table and every conforming named field
assignment, stripping the frame from the framed encoding of the id byte
followed by the assignment's wire bytes recovers that payload, and splitting
it yields exactly the same named field values. -/
theorem c2_response_roundtrip (idB : Nat) (nm : String) (st : List RespField)
    (vals : List (String × List Nat))
    (hlook : alookup idB api_responses = some (nm, st))
    (hfit : fieldsFit st vals = true) :
    readFrame false (frame (idB :: wire st vals)) =
      some (idB :: wire st vals) ∧
    split_response (idB :: wire st vals) = .ok (nm, vals) :=
  ⟨readFrame_frame _,
   split_response_ok idB nm st _ vals hlook (splitFields_wire st vals hfit)⟩

/-- C2 witness: the round-trip theorem applied to a concrete at_response
assignment. -/
theorem c2_response_roundtrip_witness :
    readFrame false (frame [0x88, 0x44, 0x4D, 0x59, 0x01, 0x41]) =
      some [0x88, 0x44, 0x4D, 0x59, 0x01, 0x41] ∧
    split_response [0x88, 0x44, 0x4D, 0x59, 0x01, 0x41] =
      .ok ("at_response",
        [("frame_id", [0x44]), ("command", [0x4D, 0x59]),
         ("status", [0x01]), ("parameter", [0x41])]) :=
  c2_response_roundtrip 0x88 "at_response"
    [⟨"frame_id", .fixed 1⟩, ⟨"command", .fixed 2⟩, ⟨"status", .fixed 1⟩,
     ⟨"parameter", .toEnd⟩]
    [("frame_id", [0x44]), ("command", [0x4D, 0x59]),
     ("status", [0x01]), ("parameter", [0x41])]
    rfl (by decide)

/-- C3: For every at_response payload (leading byte 0x88), the trailing
variable field parameter is present in the split result exactly when at
least one byte remains after frame_id, command and status; in particular the
packet 88 44 4D 59 01 splits with no parameter entry at all, and
88 44 4D 59 01 41 42 43 44 45 46 splits with parameter = "ABCDEF". -/
theorem c3_at_response_parameter :
    (∀ a b c d : Nat, ∀ rest : List Nat,
      split_response (0x88 :: a :: b :: c :: d :: rest) =
        .ok ("at_response",
          ("frame_id", [a]) :: ("command", [b, c]) :: ("status", [d]) ::
            (match rest with
             | [] => []
             | _ :: _ => [("parameter", rest)]))) ∧
    split_response [0x88, 0x44, 0x4D, 0x59, 0x01] =
      .ok ("at_response",
        [("frame_id", [0x44]), ("command", [0x4D, 0x59]),
         ("status", [0x01])]) ∧
    split_response
        [0x88, 0x44, 0x4D, 0x59, 0x01, 0x41, 0x42, 0x43, 0x44, 0x45, 0x46] =
      .ok ("at_response",
        [("frame_id", [0x44]), ("command", [0x4D, 0x59]), ("status", [0x01]),
         ("parameter", [0x41, 0x42, 0x43, 0x44, 0x45, 0x46])]) := by
  refine ⟨fun a b c d rest => ?_, rfl, rfl⟩
  cases rest with
  | nil => rfl
  | cons x xs => rfl

/-- C4: The status response (leading byte 0x8A, one fixed 1-byte field)
splits successfully exactly when one byte follows the id byte: zero
following bytes fail with `TruncatedPacket` and two or more fail with
`TrailingData`. -/
theorem c4_status_length_exact :
    ∀ rest : List Nat,
      split_response (0x8A :: rest) =
        match rest with
        | [] => .error .TruncatedPacket
        | [b] => .ok ("status", [("status", [b])])
        | _ :: _ :: _ => .error .TrailingData := by
  intro rest
  match rest with
  | [] => rfl
  | [b] => rfl
  | _ :: _ :: _ => rfl

/-- C5: With escaping enabled the decode path treats a 0x7D in the
length/payload/checksum region as an escape lead-in, substituting the next
byte XOR 0x20; consequently reading back an escaped frame recovers the
original payload, and the concrete escaped frame containing the pair
7D 33 decodes that pair to the single payload byte 0x13. -/
theorem c5_escaped_decode :
    (∀ b : Nat, ∀ rest : List Nat,
      readEscByte true (0x7D :: b :: rest) = some (b ^^^ 0x20, rest)) ∧
    (∀ p : List Nat, readFrame true (frameEscaped p) = some p) ∧
    readFrame true [0x7E, 0x00, 0x02, 0x90, 0x7D, 0x33, 0x5C] =
      some [0x90, 0x13] :=
  ⟨fun _ _ => rfl, readFrame_frameEscaped, rfl⟩

/-- C6, as stated, is false: the checksum of the payload 08 2B 4D 59
('\x08+MY') is 0xFF - 0xD9 = 0x26, so the framed bytes end in 0x26, not the
0x10 the claim asserts (0x10 is the checksum for frame_id 'A', not '+'). -/
theorem c6_counterexample :
    build_command "at" [("frame_id", [0x2B]), ("command", [0x4D, 0x59])] =
      .ok [0x08, 0x2B, 0x4D, 0x59] ∧
    frame [0x08, 0x2B, 0x4D, 0x59] ≠
      [0x7E, 0x00, 0x04, 0x08, 0x2B, 0x4D, 0x59, 0x10] :=
  ⟨rfl, by decide⟩

/-- C6 (amended): build_command for the at command with frame_id chr(43)
('+', 0x2B) and command "MY" returns the unframed payload 08 2B 4D 59
('\x08+MY'), and framing that payload yields 7E 00 04 08 2B 4D 59 26, the
checksum byte being 0x26. -/
theorem c6_build_at_chr43 :
    build_command "at" [("frame_id", [0x2B]), ("command", [0x4D, 0x59])] =
      .ok [0x08, 0x2B, 0x4D, 0x59] ∧
    frame [0x08, 0x2B, 0x4D, 0x59] =
      [0x7E, 0x00, 0x04, 0x08, 0x2B, 0x4D, 0x59, 0x26] ∧
    checksum [0x08, 0x2B, 0x4D, 0x59] = 0x26 :=
  ⟨rfl, rfl, rfl⟩

/-- C7: For any command schema of the table whose fixed-length fields are
all either supplied or defaulted, build_command fails with
`InvalidFieldLength` exactly when some supplied fixed-length field's value
has the wrong byte length; in particular building the at command with the
two-byte frame_id "AB" fails so, and send then writes nothing (the error
propagates before any bytes reach the transport). -/
theorem c7_invalid_field_length :
    (∀ cmd : String, ∀ st : List CmdField,
      ∀ fields : List (String × List Nat),
      alookup cmd api_commands = some st →
      (∀ f ∈ st, fixedCovered f fields = true) →
      ((∃ f ∈ st, isMismatch f fields = true) ↔
        build_command cmd fields = .error .InvalidFieldLength)) ∧
    build_command "at" [("frame_id", [0x41, 0x42]), ("command", [0x4D, 0x59])] =
      .error .InvalidFieldLength ∧
    send "at" [("frame_id", [0x41, 0x42]), ("command", [0x4D, 0x59])] =
      .error .InvalidFieldLength := by
  refine ⟨fun cmd st fields hlook hcov => ?_, rfl, rfl⟩
  simp only [build_command, hlook]
  exact buildFields_mismatch_iff st fields hcov

/-- C7 witness: the equivalence applied to the at command with the
two-byte frame_id "AB". -/
theorem c7_invalid_field_length_witness :
    build_command "at" [("frame_id", [0x41, 0x42]), ("command", [0x4D, 0x59])] =
      .error .InvalidFieldLength :=
  (c7_invalid_field_length.1 "at"
    [⟨"id", some 1, some [0x08]⟩, ⟨"frame_id", some 1, some [0x00]⟩,
     ⟨"command", some 2, none⟩, ⟨"parameter", none, none⟩]
    [("frame_id", [0x41, 0x42]), ("command", [0x4D, 0x59])]
    rfl (by decide)).mp (by decide)

/-- C8: With shorthand enabled, the attribute-style call for "at" resolves
to the partially-applied send, producing byte-for-byte the same transport
write (shown concretely for frame_id 'A', command "MY"); with shorthand
disabled no dynamic attribute resolution happens and the access fails
(`AttributeNotFound`, modelled as `none`). -/
theorem c8_shorthand_equiv :
    (∃ f, shorthandCall true "at" = some f ∧
      ∀ fields, f fields = send "at" fields) ∧
    (shorthandCall true "at").map
        (fun f => f [("frame_id", [0x41]), ("command", [0x4D, 0x59])]) =
      some (.ok [0x7E, 0x00, 0x04, 0x08, 0x41, 0x4D, 0x59, 0x10]) ∧
    shorthandCall false "at" = none :=
  ⟨⟨send "at", rfl, fun _ => rfl⟩, rfl, rfl⟩

/-- C9: In every command schema and every response structure of the device
table, every non-final field has a determinate length, so at most one field
is variable-length (marker `len:None` / ToEnd) and such a field can only be
the last of its schema. -/
theorem c9_variable_fields_last :
    (api_commands.all fun p => cmdVarLast p.2) = true ∧
    (api_responses.all fun p => respVarLast p.2.2) = true :=
  ⟨rfl, rfl⟩

/-- C10: The rx response schema (leading byte 0x90) declares source_addr as
exactly 7 bytes, and for every successfully split rx payload the byte
immediately following the id byte is returned as frame_id, so the first
byte of the radio's 8-byte source address lands in frame_id rather than in
source_addr. -/
theorem c10_rx_frame_id_seven_byte_source :
    alookup 0x90 api_responses =
      some ("rx",
        [⟨"frame_id", .fixed 1⟩, ⟨"source_addr", .fixed 7⟩,
         ⟨"reserved", .fixed 2⟩, ⟨"options", .fixed 1⟩,
         ⟨"rf_data", .toEnd⟩]) ∧
    (∀ b s1 s2 s3 s4 s5 s6 s7 r1 r2 o1 : Nat, ∀ tail : List Nat,
      split_response
          (0x90 :: b :: s1 :: s2 :: s3 :: s4 :: s5 :: s6 :: s7 ::
            r1 :: r2 :: o1 :: tail) =
        .ok ("rx",
          ("frame_id", [b]) :: ("source_addr", [s1, s2, s3, s4, s5, s6, s7]) ::
            ("reserved", [r1, r2]) :: ("options", [o1]) ::
            (match tail with
             | [] => []
             | _ :: _ => [("rf_data", tail)]))) := by
  refine ⟨rfl, fun b s1 s2 s3 s4 s5 s6 s7 r1 r2 o1 tail => ?_⟩
  cases tail with
  | nil => rfl
  | cons x xs => rfl

end XBeePro900
